import Mathlib

/-!
Shallow embedding of the route-to-itinerary derivation engine of
`hike-browser` (`src/routers/frontend.py`), together with proofs about it.

Python floats are modelled as real numbers; `float("inf")` (the initial
best distance of the snapping scan) is modelled by `Option ℝ` with `none`
standing for infinity, since every distance computed by the haversine
formula is a finite real.
-/

namespace HikeBrowser

/-- `math.radians`: degrees to radians. -/
noncomputable def radians (x : ℝ) : ℝ := x * Real.pi / 180

/-- `_haversine_m` from `src/routers/frontend.py`: great-circle distance in
meters with Earth radius 6,371,000 m. -/
noncomputable def haversine_m (lat1 lon1 lat2 lon2 : ℝ) : ℝ :=
  let radius_m : ℝ := 6371000
  let p1 := radians lat1
  let p2 := radians lat2
  let dp := radians (lat2 - lat1)
  let dl := radians (lon2 - lon1)
  let a := Real.sin (dp / 2) ^ 2 + Real.cos p1 * Real.cos p2 * Real.sin (dl / 2) ^ 2
  2 * radius_m * Real.arcsin (Real.sqrt a)

/-- A stored route point (table `route_points`); `trip_id` and the database
`id` are omitted because all operations modelled here act on the one route
of a single trip. -/
structure RoutePoint where
  seq : ℕ
  latitude : ℝ
  longitude : ℝ
  elevation_m : Option ℝ
  cumulative_distance_m : ℝ
deriving Inhabited

/-- The ascent/descent contribution of one adjacent pair of route points in
`_calc_elevation`: skipped entirely (zero contribution) when either
elevation is absent. -/
noncomputable def pairContribution (prev cur : RoutePoint) : ℝ × ℝ :=
  match prev.elevation_m, cur.elevation_m with
  | some pe, some ce =>
    let delta := ce - pe
    if delta > 0 then (delta, 0) else if delta < 0 then (0, -delta) else (0, 0)
  | _, _ => (0, 0)

/-- The loop of `_calc_elevation` from its second list element on: `prev`
is the element just before the remaining list. -/
noncomputable def calcElevationAux (prev : RoutePoint) : List RoutePoint → ℝ × ℝ
  | [] => (0, 0)
  | cur :: rest => pairContribution prev cur + calcElevationAux cur rest

/-- `_calc_elevation` from `src/routers/frontend.py`: total `(uphill, downhill)`
over every adjacent pair of the list. -/
noncomputable def calcElevation : List RoutePoint → ℝ × ℝ
  | [] => (0, 0)
  | p :: rest => calcElevationAux p rest

/-- The scan of `_snap_to_route`: `bestDist = none` models the initial
`float("inf")`, which any computed distance strictly beats. -/
noncomputable def snapToRouteAux (latitude longitude : ℝ) :
    List RoutePoint → ℕ → Option ℝ → ℕ × Option ℝ
  | [], bestSeq, bestDist => (bestSeq, bestDist)
  | p :: rest, bestSeq, bestDist =>
    let dist := haversine_m latitude longitude p.latitude p.longitude
    match bestDist with
    | none => snapToRouteAux latitude longitude rest p.seq (some dist)
    | some b =>
      if dist < b then snapToRouteAux latitude longitude rest p.seq (some dist)
      else snapToRouteAux latitude longitude rest bestSeq (some b)

/-- `_snap_to_route` from `src/routers/frontend.py`: starts with
`best_seq = 0` and `best_dist = float("inf")`, replaces the best only on a
strictly smaller distance. -/
noncomputable def snapToRoute (latitude longitude : ℝ) (route_points : List RoutePoint) :
    ℕ × Option ℝ :=
  snapToRouteAux latitude longitude route_points 0 none

/-- One element of the parsed track document, as seen by the iteration in
`_parse_gpx_points`: its tag, the `lat`/`lon` attributes (absent or already
read as decimal numbers), and the `(tag, text)` pairs of its children, with
`""` standing for a missing or empty text. -/
structure GpxElem where
  tag : String
  lat : Option ℝ
  lon : Option ℝ
  children : List (String × String)

/-- A point extracted from the track document by `_parse_gpx_points`. -/
structure RawPoint where
  lat : ℝ
  lon : ℝ
  ele : Option ℝ

/-- Python's `str.endswith`, modelled over the character lists so that it
reduces on literals. -/
def pyEndsWith (s suffix : String) : Bool :=
  suffix.data.isSuffixOf s.data

/-- `_parse_gpx_points` from `src/routers/frontend.py`, over the document-order
element list of an already well-formed document. `parseFloat` models Python's
`float` on strings, with `none` standing for `ValueError`: the code turns that
failure into an absent elevation via `try`/`except`. -/
def parseGpxPoints (parseFloat : String → Option ℝ) : List GpxElem → List RawPoint
  | [] => []
  | e :: rest =>
    if pyEndsWith e.tag "trkpt" then
      match e.lat, e.lon with
      | some la, some lo =>
        let ele : Option ℝ :=
          match e.children.find? (fun c => pyEndsWith c.1 "ele" && c.2 != "") with
          | some c => parseFloat c.2
          | none => none
        ⟨la, lo, ele⟩ :: parseGpxPoints parseFloat rest
      | _, _ => parseGpxPoints parseFloat rest
    else parseGpxPoints parseFloat rest

/-- Outcome of `xml.etree.ElementTree.fromstring` on the uploaded bytes:
either a `ParseError` (including the empty upload, which the route import
also rejects), or the parsed tree given as its document-order element list. -/
inductive GpxDoc where
  | malformed : GpxDoc
  | wellFormed : List GpxElem → GpxDoc

/-- The error taxonomy of the route import (both surfaced as HTTP 400). -/
inductive ImportError where
  | malformedInput
  | insufficientData
deriving DecidableEq

/-- The loop of `import_route_gpx` over the points after the first:
`previous` is the point just before the remaining list, `cumulative` the
distance accumulated up to `previous`. -/
noncomputable def importGo (previous : RawPoint) (cumulative : ℝ) (seq : ℕ) :
    List RawPoint → List RoutePoint
  | [] => []
  | point :: rest =>
    let cumulative2 := cumulative + haversine_m previous.lat previous.lon point.lat point.lon
    ⟨seq, point.lat, point.lon, point.ele, cumulative2⟩ :: importGo point cumulative2 (seq + 1) rest

/-- The route-profile loop of `import_route_gpx` (lines 633–648): `seq` by
enumeration, `cumulative` grown by the haversine distance from the previous
point. -/
noncomputable def buildRoutePoints : List RawPoint → List RoutePoint
  | [] => []
  | point :: rest => ⟨0, point.lat, point.lon, point.ele, 0⟩ :: importGo point 0 1 rest

/-- `import_route_gpx` from `src/routers/frontend.py`, reduced to its data
path: parse the document, fail on malformed markup or on fewer than two
extracted points, else replace the stored route by the freshly built
RoutePoint sequence. -/
noncomputable def importRouteGpx (parseFloat : String → Option ℝ) (doc : GpxDoc) :
    Except ImportError (List RoutePoint) :=
  match doc with
  | .malformed => .error .malformedInput
  | .wellFormed elems =>
    let raw_points := parseGpxPoints parseFloat elems
    if raw_points.length < 2 then .error .insufficientData
    else .ok (buildRoutePoints raw_points)

/-- A stored route marker (table `route_markers`); `trip_id` and `id` omitted. -/
structure RouteMarker where
  title : String
  description : Option String
  poi_type_id : ℕ
  latitude : ℝ
  longitude : ℝ
  snapped_seq : ℕ
  snapped_distance_m : ℝ

/-- Errors of marker snapping and of itinerary generation (HTTP 400). -/
inductive GenError where
  | routeNotImported
  | noMarkers
deriving DecidableEq

/-- Python's `str.strip()` (without arguments): drop leading and trailing
whitespace, modelled over the string's character list so that it reduces on
literals. -/
def pyStrip (s : String) : String :=
  ⟨((s.data.dropWhile Char.isWhitespace).reverse.dropWhile Char.isWhitespace).reverse⟩

/-- `add_route_marker` from `src/routers/frontend.py`, reduced to its data
path: fails when no route is imported, else snaps the candidate and stores
the snapped point's cumulative distance. The Python indexing
`route_points[snapped_seq]` is modelled with `getD`; under the dense-`seq`
invariant of an imported route the index is always in range. -/
noncomputable def addRouteMarker (title : String) (poi_type_id : ℕ)
    (latitude longitude : ℝ) (description : String)
    (route_points : List RoutePoint) : Except GenError RouteMarker :=
  if route_points.isEmpty then .error .routeNotImported
  else
    let snapped_seq := (snapToRoute latitude longitude route_points).1
    let snapped_point := route_points.getD snapped_seq default
    .ok
      { title := if pyStrip title = "" then "POI" else pyStrip title
        description := if pyStrip description = "" then none else some (pyStrip description)
        poi_type_id := poi_type_id
        latitude := latitude
        longitude := longitude
        snapped_seq := snapped_seq
        snapped_distance_m := snapped_point.cumulative_distance_m }

/-- Clock time of day, as stored in the `start_time` column. -/
structure TimeOfDay where
  hour : ℕ
  minute : ℕ
deriving DecidableEq

/-- A stored itinerary item (table `items`); `id`, `trip_id` and `day_id`
are omitted: all operations modelled here act on the item list of one day,
in its stored order. -/
structure Item where
  title : String
  description : Option String
  item_type : String
  start_time : Option TimeOfDay
  duration_minutes : Option ℕ
  transport_type : Option String
  distance_km : Option ℝ
  uphill_m : Option ℝ
  downhill_m : Option ℝ
  poi_type_id : Option ℕ
  latitude : Option ℝ
  longitude : Option ℝ
  route_start_seq : Option ℕ
  route_end_seq : Option ℕ
  sort_order : ℤ

/-- One anchor row of `generate_itinerary_from_route`. -/
structure Anchor where
  title : String
  seq : ℕ
  cum : ℝ
  marker : Option RouteMarker

/-- The marker query of `generate_itinerary_from_route`:
`ORDER BY snapped_distance_m ASC` over the trip's markers, modelled as a
stable sort of the stored marker list. -/
noncomputable def sortMarkers (markers : List RouteMarker) : List RouteMarker :=
  List.insertionSort (fun a b => a.snapped_distance_m ≤ b.snapped_distance_m) markers

/-- The anchor list of `generate_itinerary_from_route` before sorting:
Start, one anchor per marker (in marker-query order), Finish. Callers
guarantee at least two route points, so head and last are taken with a
default that is never used. -/
def buildAnchors (route_points : List RoutePoint) (markers : List RouteMarker) :
    List Anchor :=
  ({ title := "Start", seq := (route_points.headI).seq,
     cum := (route_points.headI).cumulative_distance_m, marker := none } ::
   markers.map fun m =>
     { title := m.title, seq := m.snapped_seq, cum := m.snapped_distance_m,
       marker := some m })
  ++ [{ title := "Finish", seq := (route_points.getLastD default).seq,
        cum := (route_points.getLastD default).cumulative_distance_m, marker := none }]

/-- `anchors = sorted(anchors, key=lambda row: row["cum"])`: Python's stable
sort by cumulative distance, modelled as a stable insertion sort. -/
noncomputable def sortedAnchors (route_points : List RoutePoint)
    (markers : List RouteMarker) : List Anchor :=
  List.insertionSort (fun a b => a.cum ≤ b.cum)
    (buildAnchors route_points (sortMarkers markers))

/-- The emission loop of `generate_itinerary_from_route` over adjacent anchor
pairs, carrying the running `sort_order` counter. A degenerate pair
(`end_seq <= start_seq`) is skipped entirely: no travel entry, no stop entry,
no counter increment. -/
noncomputable def emitPairs (route_points : List RoutePoint) :
    List Anchor → ℤ → List Item
  | [], _ => []
  | [_], _ => []
  | a :: b :: rest, sort_order =>
    if b.seq ≤ a.seq then emitPairs route_points (b :: rest) sort_order
    else
      let segment_points := (route_points.drop a.seq).take (b.seq + 1 - a.seq)
      let distance_m := max 0 (b.cum - a.cum)
      let uphill_m := (calcElevation segment_points).1
      let downhill_m := (calcElevation segment_points).2
      let transport_item : Item :=
        { title := a.title ++ " -> " ++ b.title
          description := some "Generated from GPX route"
          item_type := "transport"
          start_time := none
          duration_minutes := none
          transport_type := some "walk"
          distance_km := some (distance_m / 1000)
          uphill_m := some uphill_m
          downhill_m := some downhill_m
          poi_type_id := none
          latitude := none
          longitude := none
          route_start_seq := some a.seq
          route_end_seq := some b.seq
          sort_order := sort_order }
      match b.marker with
      | none => transport_item :: emitPairs route_points (b :: rest) (sort_order + 1)
      | some m =>
        let snapped_point := route_points.getD m.snapped_seq default
        let poi_item : Item :=
          { title := m.title
            description := m.description
            item_type := "poi"
            start_time := none
            duration_minutes := none
            transport_type := none
            distance_km := none
            uphill_m := none
            downhill_m := none
            poi_type_id := some m.poi_type_id
            latitude := some snapped_point.latitude
            longitude := some snapped_point.longitude
            route_start_seq := some m.snapped_seq
            route_end_seq := some m.snapped_seq
            sort_order := sort_order + 1 }
        transport_item :: poi_item ::
          emitPairs route_points (b :: rest) (sort_order + 2)

/-- `SELECT max(Item.sort_order)` over the day's items: `none` when the day
has no items. -/
def maxSortOrder (items : List Item) : Option ℤ :=
  (items.map fun i => i.sort_order).max?

/-- `generate_itinerary_from_route` from `src/routers/frontend.py`, reduced
to its data path on one day's item list: fails without an imported route of
at least two points or without markers; with `clear_existing` it deletes all
of the day's items and restarts the `sort_order` counter at 0, otherwise it
appends after `1 + max(existing sort_order)` (0 when the day is empty).
The returned list is the day's item list after the run, in stored order. -/
noncomputable def generateItinerary (route_points : List RoutePoint)
    (markers : List RouteMarker) (existing : List Item)
    (clear_existing : Bool) : Except GenError (List Item) :=
  if route_points.length < 2 then .error .routeNotImported
  else if markers.isEmpty then .error .noMarkers
  else
    let sort_order : ℤ :=
      if clear_existing then 0 else (maxSortOrder existing).elim 0 (· + 1)
    let new_items := emitPairs route_points (sortedAnchors route_points markers) sort_order
    .ok (if clear_existing then new_items else existing ++ new_items)

/-- One iteration of the loop of `_build_schedule`: from the carried
`last_end_minutes` and the item, the `(startMinutes, endMinutes)` pair and
the new `last_end_minutes`. -/
def scheduleStep (lastEnd : Option ℕ) (item : Item) :
    (Option ℕ × Option ℕ) × Option ℕ :=
  let duration := item.duration_minutes
  let startMinutes : Option ℕ :=
    match item.start_time with
    | some t => some (t.hour * 60 + t.minute)
    | none => lastEnd
  let endMinutes : Option ℕ :=
    match startMinutes, duration with
    | some s, some d => some (s + d)
    | _, _ => none
  let lastEnd2 : Option ℕ :=
    if endMinutes.isSome then endMinutes
    else if startMinutes.isSome ∧ (duration = some 0 ∨ duration = none) then startMinutes
    else lastEnd
  ((startMinutes, endMinutes), lastEnd2)

/-- The loop of `_build_schedule`: `lastEnd` is the carried
`last_end_minutes`; the result lists `(startMinutes, endMinutes)` per item
in input order (the code renders these as `"HH:MM"` strings keyed by item
id, with `""` for an unset value). -/
def buildScheduleAux (lastEnd : Option ℕ) : List Item → List (Option ℕ × Option ℕ)
  | [] => []
  | item :: rest =>
    (scheduleStep lastEnd item).1 :: buildScheduleAux (scheduleStep lastEnd item).2 rest

/-- `_build_schedule` from `src/routers/frontend.py`: the forward fold with
`last_end_minutes` initialized to `None`. -/
def buildSchedule (items : List Item) : List (Option ℕ × Option ℕ) :=
  buildScheduleAux none items

/-- One step of the Schedule Builder as the spec states it, written as an
explicit accumulator function: the state is `(lastEndMinutes, output so far)`. -/
def scheduleSpecStep (state : Option ℕ × List (Option ℕ × Option ℕ)) (item : Item) :
    Option ℕ × List (Option ℕ × Option ℕ) :=
  let lastEnd := state.1
  let startMinutes : Option ℕ :=
    if item.start_time.isSome then
      item.start_time.map fun t => t.hour * 60 + t.minute
    else if lastEnd.isSome then lastEnd
    else none
  let endMinutes : Option ℕ :=
    if startMinutes.isSome ∧ item.duration_minutes.isSome then
      some (startMinutes.getD 0 + item.duration_minutes.getD 0)
    else none
  let newLastEnd : Option ℕ :=
    if endMinutes.isSome then endMinutes
    else if startMinutes.isSome ∧ (item.duration_minutes = some 0 ∨ item.duration_minutes = none) then
      startMinutes
    else lastEnd
  (newLastEnd, state.2 ++ [(startMinutes, endMinutes)])

/-- The Schedule Builder exactly as worded in the spec: a single forward
fold over the ordered entries with accumulator `lastEndMinutes`, initially
none. -/
def scheduleSpec (items : List Item) : List (Option ℕ × Option ℕ) :=
  (items.foldl scheduleSpecStep (none, [])).2

/-! ## Schedule Builder (claim C4) -/

theorem scheduleSpecStep_eq (lastEnd : Option ℕ) (out : List (Option ℕ × Option ℕ))
    (item : Item) :
    scheduleSpecStep (lastEnd, out) item =
      ((scheduleStep lastEnd item).2, out ++ [(scheduleStep lastEnd item).1]) := by
  rcases hst : item.start_time with _ | t <;>
    rcases hd : item.duration_minutes with _ | d <;>
    rcases lastEnd with _ | le <;>
    simp [scheduleSpecStep, scheduleStep, hst, hd]

theorem scheduleSpec_foldl (items : List Item) :
    ∀ (lastEnd : Option ℕ) (out : List (Option ℕ × Option ℕ)),
      (List.foldl scheduleSpecStep (lastEnd, out) items).2 =
        out ++ buildScheduleAux lastEnd items := by
  induction items with
  | nil => intro lastEnd out; simp [buildScheduleAux]
  | cons item rest ih =>
    intro lastEnd out
    rw [List.foldl_cons, scheduleSpecStep_eq, ih, buildScheduleAux]
    simp

/-- C4: the Schedule Builder is exactly the single forward fold described by
the spec: `startMinutes` is the explicit start time if present, else the
carried `lastEndMinutes` if set, else none; `endMinutes = startMinutes +
duration` when both are present; and `lastEndMinutes` becomes `endMinutes`
when computed, else `startMinutes` when that is set and the duration is
zero or absent, else stays unchanged. -/
theorem C4_schedule_builder (items : List Item) :
    buildSchedule items = scheduleSpec items := by
  rw [buildSchedule, scheduleSpec, scheduleSpec_foldl]
  simp

/-! ## Geodesic Distance (claim C9) -/

theorem sin_sq_sub_symm (x y : ℝ) :
    Real.sin ((x - y) * Real.pi / 180 / 2) ^ 2 =
      Real.sin ((y - x) * Real.pi / 180 / 2) ^ 2 := by
  have h : (x - y) * Real.pi / 180 / 2 = -((y - x) * Real.pi / 180 / 2) := by ring
  rw [h, Real.sin_neg, neg_sq]

/-- C9 (amended): the geodesic distance is symmetric and vanishes on
identical coordinate pairs. The converse direction of the original claim
(zero only on identical pairs) is false, see the counterexample. -/
theorem C9_geodesic_symmetry_and_zero (lat1 lon1 lat2 lon2 : ℝ) :
    haversine_m lat1 lon1 lat2 lon2 = haversine_m lat2 lon2 lat1 lon1 ∧
      haversine_m lat1 lon1 lat1 lon1 = 0 := by
  constructor
  · simp only [haversine_m, radians]
    rw [sin_sq_sub_symm lat2 lat1, sin_sq_sub_symm lon2 lon1, mul_comm
      (Real.cos (lat1 * Real.pi / 180)) (Real.cos (lat2 * Real.pi / 180))]
  · simp only [haversine_m, radians]
    simp

/-- C9 fails as stated: the haversine distance between the two distinct
coordinate pairs `(90, 0)` and `(90, 1)` (both at the north pole, different
longitudes) is 0. -/
theorem C9_counterexample :
    haversine_m 90 0 90 1 = 0 ∧ ((90 : ℝ), (0 : ℝ)) ≠ ((90 : ℝ), (1 : ℝ)) := by
  constructor
  · simp only [haversine_m, radians]
    have h90 : (90 : ℝ) * Real.pi / 180 = Real.pi / 2 := by ring
    rw [h90, Real.cos_pi_div_two]
    norm_num
  · simp only [ne_eq, Prod.mk.injEq, not_and]
    intro _
    norm_num

/-! ## Route Profile Builder (claim C2) -/

theorem haversine_nonneg (lat1 lon1 lat2 lon2 : ℝ) :
    0 ≤ haversine_m lat1 lon1 lat2 lon2 := by
  simp only [haversine_m, radians]
  have h := Real.arcsin_nonneg.mpr (Real.sqrt_nonneg
    (Real.sin ((lat2 - lat1) * Real.pi / 180 / 2) ^ 2 +
      Real.cos (lat1 * Real.pi / 180) * Real.cos (lat2 * Real.pi / 180) *
        Real.sin ((lon2 - lon1) * Real.pi / 180 / 2) ^ 2))
  nlinarith

theorem importGo_length (l : List RawPoint) :
    ∀ prev cum seq, (importGo prev cum seq l).length = l.length := by
  induction l with
  | nil => intro prev cum seq; simp [importGo]
  | cons p rest ih => intro prev cum seq; simp [importGo, ih]

theorem buildRoutePoints_length (raw : List RawPoint) :
    (buildRoutePoints raw).length = raw.length := by
  cases raw with
  | nil => simp [buildRoutePoints]
  | cons p rest => simp [buildRoutePoints, importGo_length]

theorem importGo_seq (l : List RawPoint) :
    ∀ prev cum seq i, i < l.length →
      ((importGo prev cum seq l).getD i default).seq = seq + i := by
  induction l with
  | nil => intro prev cum seq i h; simp at h
  | cons p rest ih =>
    intro prev cum seq i h
    cases i with
    | zero => simp [importGo]
    | succ j =>
      have hj : j < rest.length := by simpa using h
      simp only [importGo, List.getD_cons_succ]
      rw [ih p _ (seq + 1) j hj]
      omega

theorem buildRoutePoints_seq (raw : List RawPoint) (i : ℕ) (h : i < raw.length) :
    ((buildRoutePoints raw).getD i default).seq = i := by
  cases raw with
  | nil => simp at h
  | cons p rest =>
    cases i with
    | zero => simp [buildRoutePoints]
    | succ j =>
      have hj : j < rest.length := by simpa using h
      simp only [buildRoutePoints, List.getD_cons_succ]
      rw [importGo_seq rest p 0 1 j hj]
      omega

theorem importGo_head (p : RawPoint) (rest : List RawPoint) (prev : RawPoint)
    (cum : ℝ) (seq : ℕ) :
    (importGo prev cum seq (p :: rest)).getD 0 default =
      ⟨seq, p.lat, p.lon, p.ele, cum + haversine_m prev.lat prev.lon p.lat p.lon⟩ := by
  simp [importGo]

theorem importGo_adjacent (l : List RawPoint) :
    ∀ prev cum seq i, i + 1 < l.length →
      ((importGo prev cum seq l).getD (i + 1) default).cumulative_distance_m =
        ((importGo prev cum seq l).getD i default).cumulative_distance_m +
          haversine_m ((importGo prev cum seq l).getD i default).latitude
            ((importGo prev cum seq l).getD i default).longitude
            ((importGo prev cum seq l).getD (i + 1) default).latitude
            ((importGo prev cum seq l).getD (i + 1) default).longitude := by
  induction l with
  | nil => intro prev cum seq i h; simp at h
  | cons p rest ih =>
    intro prev cum seq i h
    cases i with
    | zero =>
      cases rest with
      | nil => simp at h
      | cons r rest' =>
        simp [importGo]
    | succ j =>
      have hj : j + 1 < rest.length := by simpa using h
      simp only [importGo, List.getD_cons_succ]
      exact ih p _ (seq + 1) j hj

/-- C2: for an import of at least two points, the stored profile has
`cumulativeDistance = 0` at position 0, satisfies the adjacent recurrence
`cum[i+1] = cum[i] + GeodesicDistance(point i, point i+1)` over the stored
points, and is non-decreasing along the sequence. -/
theorem C2_route_profile (raw : List RawPoint) (h2 : 2 ≤ raw.length) :
    ((buildRoutePoints raw).getD 0 default).cumulative_distance_m = 0 ∧
      (∀ i, i + 1 < raw.length →
        ((buildRoutePoints raw).getD (i + 1) default).cumulative_distance_m =
          ((buildRoutePoints raw).getD i default).cumulative_distance_m +
            haversine_m ((buildRoutePoints raw).getD i default).latitude
              ((buildRoutePoints raw).getD i default).longitude
              ((buildRoutePoints raw).getD (i + 1) default).latitude
              ((buildRoutePoints raw).getD (i + 1) default).longitude) ∧
      (∀ i j, i ≤ j → j < raw.length →
        ((buildRoutePoints raw).getD i default).cumulative_distance_m ≤
          ((buildRoutePoints raw).getD j default).cumulative_distance_m) := by
  have hadj : ∀ i, i + 1 < raw.length →
      ((buildRoutePoints raw).getD (i + 1) default).cumulative_distance_m =
        ((buildRoutePoints raw).getD i default).cumulative_distance_m +
          haversine_m ((buildRoutePoints raw).getD i default).latitude
            ((buildRoutePoints raw).getD i default).longitude
            ((buildRoutePoints raw).getD (i + 1) default).latitude
            ((buildRoutePoints raw).getD (i + 1) default).longitude := by
    intro i hi
    cases raw with
    | nil => simp at hi
    | cons p rest =>
      cases i with
      | zero =>
        cases rest with
        | nil => simp at hi
        | cons r rest' =>
          simp [buildRoutePoints, importGo]
      | succ j =>
        have hj : j + 1 < rest.length := by simpa using hi
        simp only [buildRoutePoints, List.getD_cons_succ]
        exact importGo_adjacent rest p 0 1 j hj
  refine ⟨?_, hadj, ?_⟩
  · cases raw with
    | nil => simp at h2
    | cons p rest => simp [buildRoutePoints]
  · intro i j hij hj
    induction j with
    | zero =>
      have h0 : i = 0 := Nat.le_zero.mp hij
      subst h0
      exact le_rfl
    | succ k ihk =>
      rcases Nat.eq_or_lt_of_le hij with heq | hlt
      · subst heq
        exact le_rfl
      · have hik : i ≤ k := by omega
        have hk : k < raw.length := Nat.lt_of_succ_lt hj
        have h1 := ihk hik hk
        have h2' := hadj k (by omega)
        have h3 := haversine_nonneg
          ((buildRoutePoints raw).getD k default).latitude
          ((buildRoutePoints raw).getD k default).longitude
          ((buildRoutePoints raw).getD (k + 1) default).latitude
          ((buildRoutePoints raw).getD (k + 1) default).longitude
        linarith

/-- Witness for C2 on a concrete two-point import. -/
theorem C2_route_profile_witness :
    ((buildRoutePoints [⟨0, 0, none⟩, ⟨0, 1, none⟩]).getD 0
        default).cumulative_distance_m = 0 ∧
      2 ≤ ([⟨0, 0, none⟩, ⟨0, 1, none⟩] : List RawPoint).length :=
  ⟨(C2_route_profile [⟨0, 0, none⟩, ⟨0, 1, none⟩] (by simp)).1, by simp⟩

/-! ## Elevation Accumulator (claim C8) -/

theorem zeroPair : ((0, 0) : ℝ × ℝ) = 0 := rfl

theorem prodSwap_add (x y : ℝ × ℝ) : (x + y).swap = x.swap + y.swap := by
  cases x
  cases y
  simp [Prod.swap]

theorem pairContribution_swap (a b : RoutePoint) :
    pairContribution b a = (pairContribution a b).swap := by
  unfold pairContribution
  rcases a.elevation_m with _ | ea <;> rcases b.elevation_m with _ | eb
  · rfl
  · rfl
  · rfl
  · show (if ea - eb > 0 then ((ea - eb : ℝ), (0 : ℝ))
        else if ea - eb < 0 then (0, -(ea - eb)) else (0, 0)) =
      (if eb - ea > 0 then ((eb - ea : ℝ), (0 : ℝ))
        else if eb - ea < 0 then (0, -(eb - ea)) else (0, 0)).swap
    rcases lt_trichotomy ea eb with h | h | h
    · rw [if_neg (by linarith : ¬ea - eb > 0), if_pos (by linarith : ea - eb < 0),
        if_pos (by linarith : eb - ea > 0)]
      simp only [Prod.swap_prod_mk, Prod.mk.injEq]
      constructor <;> first | ring | trivial
    · subst h
      rw [if_neg (by simp : ¬ea - ea > 0), if_neg (by simp : ¬ea - ea < 0)]
      rfl
    · rw [if_pos (by linarith : ea - eb > 0), if_neg (by linarith : ¬eb - ea > 0),
        if_pos (by linarith : eb - ea < 0)]
      simp only [Prod.swap_prod_mk, Prod.mk.injEq]
      constructor <;> first | ring | trivial

theorem pairContribution_none_left (a b : RoutePoint) (h : a.elevation_m = none) :
    pairContribution a b = (0, 0) := by
  unfold pairContribution
  rw [h]

theorem pairContribution_none_right (a b : RoutePoint) (h : b.elevation_m = none) :
    pairContribution a b = (0, 0) := by
  unfold pairContribution
  rw [h]
  rcases a.elevation_m with _ | ea <;> rfl

theorem pairContribution_nonneg (a b : RoutePoint) :
    0 ≤ (pairContribution a b).1 ∧ 0 ≤ (pairContribution a b).2 := by
  unfold pairContribution
  rcases a.elevation_m with _ | ea <;> rcases b.elevation_m with _ | eb
  · exact ⟨le_rfl, le_rfl⟩
  · exact ⟨le_rfl, le_rfl⟩
  · exact ⟨le_rfl, le_rfl⟩
  · show 0 ≤ (if eb - ea > 0 then ((eb - ea : ℝ), (0 : ℝ))
        else if eb - ea < 0 then (0, -(eb - ea)) else (0, 0)).1 ∧
      0 ≤ (if eb - ea > 0 then ((eb - ea : ℝ), (0 : ℝ))
        else if eb - ea < 0 then (0, -(eb - ea)) else (0, 0)).2
    constructor <;> (split_ifs <;> simp <;> linarith)

theorem calcElevationAux_cons (prev cur : RoutePoint) (rest : List RoutePoint) :
    calcElevationAux prev (cur :: rest) =
      pairContribution prev cur + calcElevationAux cur rest := rfl

theorem calcElevationAux_append_single (xs : List RoutePoint) :
    ∀ (prev a : RoutePoint),
      calcElevationAux prev (xs ++ [a]) =
        calcElevationAux prev xs + pairContribution (xs.getLastD prev) a := by
  induction xs with
  | nil =>
    intro prev a
    show pairContribution prev a + (0, 0) =
      (0, 0) + pairContribution (List.getLastD [] prev) a
    rw [zeroPair, add_zero, zero_add]
    rfl
  | cons x xs' ih =>
    intro prev a
    rw [List.cons_append, calcElevationAux_cons, calcElevationAux_cons,
      List.getLastD_cons, ih x a, add_assoc]

theorem calcElevation_append_single (xs : List RoutePoint) (a : RoutePoint)
    (h : xs ≠ []) :
    calcElevation (xs ++ [a]) =
      calcElevation xs + pairContribution (xs.getLastD default) a := by
  cases xs with
  | nil => exact absurd rfl h
  | cons x xs' =>
    show calcElevationAux x (xs' ++ [a]) =
      calcElevationAux x xs' + pairContribution ((x :: xs').getLastD default) a
    rw [calcElevationAux_append_single, List.getLastD_cons]

theorem calcElevation_cons_cons (a b : RoutePoint) (l : List RoutePoint) :
    calcElevation (a :: b :: l) = pairContribution a b + calcElevation (b :: l) := rfl

theorem calcElevation_reverse (l : List RoutePoint) :
    calcElevation l.reverse = (calcElevation l).swap := by
  induction l with
  | nil => rfl
  | cons a l' ih =>
    cases l' with
    | nil => rfl
    | cons b l'' =>
      have hrev : (a :: b :: l'').reverse = (b :: l'').reverse ++ [a] := by
        simp
      rw [hrev, calcElevation_append_single _ _ (by simp), ih]
      have hlast : ((b :: l'').reverse.getLastD default) = b := by
        rw [List.getLastD_eq_getLast?, List.getLast?_reverse]
        rfl
      rw [hlast, pairContribution_swap a b, calcElevation_cons_cons,
        prodSwap_add, add_comm]

theorem calcElevationAux_nonneg (l : List RoutePoint) :
    ∀ prev, 0 ≤ (calcElevationAux prev l).1 ∧ 0 ≤ (calcElevationAux prev l).2 := by
  induction l with
  | nil => intro prev; exact ⟨le_rfl, le_rfl⟩
  | cons cur rest ih =>
    intro prev
    have h1 := pairContribution_nonneg prev cur
    have h2 := ih cur
    rw [calcElevationAux_cons]
    constructor
    · have : (pairContribution prev cur + calcElevationAux cur rest).1 =
        (pairContribution prev cur).1 + (calcElevationAux cur rest).1 := rfl
      rw [this]
      linarith [h1.1, h2.1]
    · have : (pairContribution prev cur + calcElevationAux cur rest).2 =
        (pairContribution prev cur).2 + (calcElevationAux cur rest).2 := rfl
      rw [this]
      linarith [h1.2, h2.2]

theorem calcElevation_nonneg (l : List RoutePoint) :
    0 ≤ (calcElevation l).1 ∧ 0 ≤ (calcElevation l).2 := by
  cases l with
  | nil => exact ⟨le_rfl, le_rfl⟩
  | cons p rest => exact calcElevationAux_nonneg rest p

theorem calcElevationAux_none (p : RoutePoint) (ys : List RoutePoint)
    (h : p.elevation_m = none) : calcElevationAux p ys = calcElevation ys := by
  cases ys with
  | nil => rfl
  | cons y ys' =>
    show pairContribution p y + calcElevationAux y ys' = calcElevationAux y ys'
    rw [pairContribution_none_left _ _ h, zeroPair, zero_add]

theorem calcElevationAux_gap (xs : List RoutePoint) :
    ∀ (prev p : RoutePoint) (ys : List RoutePoint), p.elevation_m = none →
      calcElevationAux prev (xs ++ p :: ys) =
        calcElevationAux prev xs + calcElevation ys := by
  induction xs with
  | nil =>
    intro prev p ys h
    show pairContribution prev p + calcElevationAux p ys =
      (0, 0) + calcElevation ys
    rw [pairContribution_none_right _ _ h, calcElevationAux_none p ys h]
  | cons x xs' ih =>
    intro prev p ys h
    rw [List.cons_append, calcElevationAux_cons, calcElevationAux_cons,
      ih x p ys h, add_assoc]

theorem calcElevation_gap (xs : List RoutePoint) (p : RoutePoint)
    (ys : List RoutePoint) (h : p.elevation_m = none) :
    calcElevation (xs ++ p :: ys) = calcElevation xs + calcElevation ys := by
  cases xs with
  | nil =>
    show calcElevationAux p ys = (0, 0) + calcElevation ys
    rw [calcElevationAux_none p ys h, zeroPair, zero_add]
  | cons x xs' =>
    show calcElevationAux x (xs' ++ p :: ys) =
      calcElevationAux x xs' + calcElevation ys
    rw [calcElevationAux_gap xs' x p ys h]

/-- C8: the Elevation Accumulator on the reverse-ordered range yields the
swapped `(descent, ascent)` pair of the forward range; both components are
always non-negative; and a point with an absent elevation contributes
nothing and does not reset the running totals (the total over a list with
such a point inserted splits into the totals of the two sides). -/
theorem C8_elevation_accumulator :
    (∀ l : List RoutePoint, calcElevation l.reverse = (calcElevation l).swap) ∧
      (∀ l : List RoutePoint,
        0 ≤ (calcElevation l).1 ∧ 0 ≤ (calcElevation l).2) ∧
      (∀ (xs : List RoutePoint) (p : RoutePoint) (ys : List RoutePoint),
        p.elevation_m = none →
          calcElevation (xs ++ p :: ys) = calcElevation xs + calcElevation ys) :=
  ⟨calcElevation_reverse, calcElevation_nonneg, calcElevation_gap⟩

/-- Witness for C8 at concrete inputs. -/
theorem C8_elevation_accumulator_witness :
    calcElevation ([⟨0, 0, 0, some 3, 0⟩, ⟨1, 0, 0, some 5, 1⟩] :
        List RoutePoint).reverse =
      (calcElevation [⟨0, 0, 0, some 3, 0⟩, ⟨1, 0, 0, some 5, 1⟩]).swap ∧
      (⟨2, 0, 0, none, 2⟩ : RoutePoint).elevation_m = none ∧
      calcElevation ([⟨0, 0, 0, some 3, 0⟩] ++ (⟨2, 0, 0, none, 2⟩ : RoutePoint) ::
          [⟨1, 0, 0, some 5, 1⟩]) =
        calcElevation [⟨0, 0, 0, some 3, 0⟩] + calcElevation [⟨1, 0, 0, some 5, 1⟩] :=
  ⟨C8_elevation_accumulator.1 _, rfl,
    C8_elevation_accumulator.2.2 [⟨0, 0, 0, some 3, 0⟩] ⟨2, 0, 0, none, 2⟩
      [⟨1, 0, 0, some 5, 1⟩] rfl⟩

/-! ## Marker Snapper (claims C1 and C5) -/

theorem snapToRouteAux_cons_some (latitude longitude : ℝ) (p : RoutePoint)
    (rest : List RoutePoint) (bs : ℕ) (bd : ℝ) :
    snapToRouteAux latitude longitude (p :: rest) bs (some bd) =
      if haversine_m latitude longitude p.latitude p.longitude < bd then
        snapToRouteAux latitude longitude rest p.seq
          (some (haversine_m latitude longitude p.latitude p.longitude))
      else snapToRouteAux latitude longitude rest bs (some bd) := rfl

theorem snapToRouteAux_cons_none (latitude longitude : ℝ) (p : RoutePoint)
    (rest : List RoutePoint) (bs : ℕ) :
    snapToRouteAux latitude longitude (p :: rest) bs none =
      snapToRouteAux latitude longitude rest p.seq
        (some (haversine_m latitude longitude p.latitude p.longitude)) := rfl

theorem snapAux_result (latitude longitude : ℝ) (l : List RoutePoint) :
    ∀ (bs : ℕ) (bd : ℝ),
      snapToRouteAux latitude longitude l bs (some bd) = (bs, some bd) ∨
        ∃ p ∈ l, snapToRouteAux latitude longitude l bs (some bd) =
          (p.seq, some (haversine_m latitude longitude p.latitude p.longitude)) := by
  induction l with
  | nil => intro bs bd; exact Or.inl rfl
  | cons p rest ih =>
    intro bs bd
    rw [snapToRouteAux_cons_some]
    split_ifs with hlt
    · rcases ih p.seq (haversine_m latitude longitude p.latitude p.longitude) with h | h
      · exact Or.inr ⟨p, List.mem_cons_self p rest, h⟩
      · rcases h with ⟨q, hq, hrun⟩
        exact Or.inr ⟨q, List.mem_cons_of_mem p hq, hrun⟩
    · rcases ih bs bd with h | h
      · exact Or.inl h
      · rcases h with ⟨q, hq, hrun⟩
        exact Or.inr ⟨q, List.mem_cons_of_mem p hq, hrun⟩

theorem snapAux_le (latitude longitude : ℝ) (l : List RoutePoint) :
    ∀ (bs : ℕ) (bd : ℝ) (rs : ℕ) (rd : ℝ),
      snapToRouteAux latitude longitude l bs (some bd) = (rs, some rd) →
      rd ≤ bd ∧ ∀ q ∈ l,
        rd ≤ haversine_m latitude longitude q.latitude q.longitude := by
  induction l with
  | nil =>
    intro bs bd rs rd h
    have hbd : some bd = some rd := congrArg Prod.snd h
    have : bd = rd := Option.some.inj hbd
    subst this
    exact ⟨le_rfl, by intro q hq; simp at hq⟩
  | cons p rest ih =>
    intro bs bd rs rd h
    rw [snapToRouteAux_cons_some] at h
    split_ifs at h with hlt
    · obtain ⟨h1, h2⟩ := ih _ _ _ _ h
      refine ⟨le_of_lt (lt_of_le_of_lt h1 hlt), ?_⟩
      intro q hq
      rcases List.mem_cons.mp hq with rfl | hq'
      · exact h1
      · exact h2 q hq'
    · obtain ⟨h1, h2⟩ := ih _ _ _ _ h
      refine ⟨h1, ?_⟩
      intro q hq
      rcases List.mem_cons.mp hq with rfl | hq'
      · exact le_trans h1 (not_lt.mp hlt)
      · exact h2 q hq'

theorem snapAux_stay (latitude longitude : ℝ) (l : List RoutePoint) :
    ∀ (bs : ℕ) (bd : ℝ) (rs : ℕ) (rd : ℝ),
      snapToRouteAux latitude longitude l bs (some bd) = (rs, some rd) →
      rd = bd → rs = bs := by
  induction l with
  | nil =>
    intro bs bd rs rd h _
    have hh : bs = rs := congrArg Prod.fst h
    exact hh.symm
  | cons p rest ih =>
    intro bs bd rs rd h heq
    rw [snapToRouteAux_cons_some] at h
    split_ifs at h with hlt
    · obtain ⟨h1, _⟩ := snapAux_le latitude longitude rest _ _ _ _ h
      exact absurd heq (by intro hh; rw [hh] at h1; exact absurd (lt_of_le_of_lt h1 hlt) (lt_irrefl bd))
    · exact ih _ _ _ _ h heq

theorem snapAux_tie (latitude longitude : ℝ) (l : List RoutePoint) :
    ∀ (bs : ℕ) (bd : ℝ) (rs : ℕ) (rd : ℝ),
      List.Pairwise (fun p q : RoutePoint => p.seq ≤ q.seq) l →
      (∀ q ∈ l, bs ≤ q.seq) →
      snapToRouteAux latitude longitude l bs (some bd) = (rs, some rd) →
      ∀ q ∈ l, haversine_m latitude longitude q.latitude q.longitude = rd →
        rs ≤ q.seq := by
  induction l with
  | nil => intro bs bd rs rd _ _ _ q hq; simp at hq
  | cons p rest ih =>
    intro bs bd rs rd hsorted hbs h q hq hdq
    have hp : ∀ r ∈ rest, p.seq ≤ r.seq := (List.pairwise_cons.mp hsorted).1
    have hsorted' := (List.pairwise_cons.mp hsorted).2
    rw [snapToRouteAux_cons_some] at h
    split_ifs at h with hlt
    · rcases List.mem_cons.mp hq with rfl | hq'
      · have hrd : rd = haversine_m latitude longitude q.latitude q.longitude :=
          hdq.symm
        have := snapAux_stay latitude longitude rest _ _ _ _ h hrd
        omega
      · exact ih _ _ _ _ hsorted' hp h q hq' hdq
    · rcases List.mem_cons.mp hq with rfl | hq'
      · obtain ⟨h1, _⟩ := snapAux_le latitude longitude rest _ _ _ _ h
        have hbdle : bd ≤ haversine_m latitude longitude q.latitude q.longitude :=
          not_lt.mp hlt
        have hbdle2 : bd ≤ rd := by rw [hdq] at hbdle; exact hbdle
        have hrd : rd = bd := le_antisymm h1 hbdle2
        have := snapAux_stay latitude longitude rest _ _ _ _ h hrd
        have hbsq := hbs q (List.mem_cons_self q rest)
        omega
      · exact ih _ _ _ _ hsorted'
          (fun r hr => hbs r (List.mem_cons_of_mem p hr)) h q hq' hdq

theorem snapAux_isSome (latitude longitude : ℝ) (l : List RoutePoint) :
    ∀ (bs : ℕ) (bd : ℝ), ∃ rs rd,
      snapToRouteAux latitude longitude l bs (some bd) = (rs, some rd) := by
  induction l with
  | nil => intro bs bd; exact ⟨bs, bd, rfl⟩
  | cons p rest ih =>
    intro bs bd
    rw [snapToRouteAux_cons_some]
    split_ifs with hlt
    · exact ih _ _
    · exact ih _ _

/-- C1: on a non-empty route (listed in ascending `seq` order, as the
database query provides it), the snapper returns the `seq` of a route point
whose geodesic distance to the candidate is minimal, and every route point
attaining that minimal distance has a `seq` at least the returned one. -/
theorem C1_snap_global_min (latitude longitude : ℝ)
    (route_points : List RoutePoint) (hne : route_points ≠ [])
    (hsorted : List.Pairwise (fun p q : RoutePoint => p.seq ≤ q.seq) route_points) :
    ∃ p ∈ route_points,
      p.seq = (snapToRoute latitude longitude route_points).1 ∧
      (∀ q ∈ route_points,
        haversine_m latitude longitude p.latitude p.longitude ≤
          haversine_m latitude longitude q.latitude q.longitude) ∧
      (∀ q ∈ route_points,
        haversine_m latitude longitude q.latitude q.longitude =
          haversine_m latitude longitude p.latitude p.longitude →
        (snapToRoute latitude longitude route_points).1 ≤ q.seq) := by
  cases route_points with
  | nil => exact absurd rfl hne
  | cons p0 rest =>
    have hp : ∀ r ∈ rest, p0.seq ≤ r.seq := (List.pairwise_cons.mp hsorted).1
    have hsorted' := (List.pairwise_cons.mp hsorted).2
    obtain ⟨rs, rd, hrun⟩ := snapAux_isSome latitude longitude rest p0.seq
      (haversine_m latitude longitude p0.latitude p0.longitude)
    have hsnap : snapToRoute latitude longitude (p0 :: rest) = (rs, some rd) := by
      rw [snapToRoute, snapToRouteAux_cons_none]
      exact hrun
    obtain ⟨hle0, hleRest⟩ := snapAux_le latitude longitude rest _ _ _ _ hrun
    have hmem : ∃ p ∈ p0 :: rest, rs = p.seq ∧
        rd = haversine_m latitude longitude p.latitude p.longitude := by
      rcases snapAux_result latitude longitude rest p0.seq
          (haversine_m latitude longitude p0.latitude p0.longitude) with h | h
      · rw [hrun] at h
        have h1 : rs = p0.seq := congrArg Prod.fst h
        have h2 : rd = haversine_m latitude longitude p0.latitude p0.longitude :=
          Option.some.inj (congrArg Prod.snd h)
        exact ⟨p0, List.mem_cons_self p0 rest, h1, h2⟩
      · rcases h with ⟨q, hq, hrun'⟩
        rw [hrun] at hrun'
        have h1 : rs = q.seq := congrArg Prod.fst hrun'
        have h2 : rd = haversine_m latitude longitude q.latitude q.longitude :=
          Option.some.inj (congrArg Prod.snd hrun')
        exact ⟨q, List.mem_cons_of_mem p0 hq, h1, h2⟩
    obtain ⟨p, hpmem, hps, hpd⟩ := hmem
    refine ⟨p, hpmem, ?_, ?_, ?_⟩
    · rw [hsnap]
      exact hps.symm
    · intro q hq
      rw [← hpd]
      rcases List.mem_cons.mp hq with rfl | hq'
      · exact hle0
      · exact hleRest q hq'
    · intro q hq hdq
      rw [hsnap]
      show rs ≤ q.seq
      rw [← hpd] at hdq
      rcases List.mem_cons.mp hq with rfl | hq'
      · have hrd : rd = haversine_m latitude longitude q.latitude q.longitude :=
          hdq.symm
        have := snapAux_stay latitude longitude rest _ _ _ _ hrun hrd
        omega
      · exact snapAux_tie latitude longitude rest _ _ _ _ hsorted' hp hrun q hq' hdq

/-- Witness for C1 on a concrete two-point route. -/
theorem C1_snap_global_min_witness :
    ([⟨0, 1, 2, none, 0⟩, ⟨1, 3, 4, none, 7⟩] : List RoutePoint) ≠ [] ∧
      List.Pairwise (fun p q : RoutePoint => p.seq ≤ q.seq)
        ([⟨0, 1, 2, none, 0⟩, ⟨1, 3, 4, none, 7⟩] : List RoutePoint) ∧
      ∃ p ∈ ([⟨0, 1, 2, none, 0⟩, ⟨1, 3, 4, none, 7⟩] : List RoutePoint),
        p.seq = (snapToRoute 0 0 [⟨0, 1, 2, none, 0⟩, ⟨1, 3, 4, none, 7⟩]).1 ∧
        (∀ q ∈ ([⟨0, 1, 2, none, 0⟩, ⟨1, 3, 4, none, 7⟩] : List RoutePoint),
          haversine_m 0 0 p.latitude p.longitude ≤
            haversine_m 0 0 q.latitude q.longitude) ∧
        (∀ q ∈ ([⟨0, 1, 2, none, 0⟩, ⟨1, 3, 4, none, 7⟩] : List RoutePoint),
          haversine_m 0 0 q.latitude q.longitude =
            haversine_m 0 0 p.latitude p.longitude →
          (snapToRoute 0 0 [⟨0, 1, 2, none, 0⟩, ⟨1, 3, 4, none, 7⟩]).1 ≤ q.seq) :=
  ⟨by simp, by simp, C1_snap_global_min 0 0 _ (by simp) (by simp)⟩

theorem snapToRoute_fst_mem (latitude longitude : ℝ)
    (route_points : List RoutePoint) (hne : route_points ≠ []) :
    ∃ p ∈ route_points,
      (snapToRoute latitude longitude route_points).1 = p.seq := by
  cases route_points with
  | nil => exact absurd rfl hne
  | cons p0 rest =>
    rcases snapAux_result latitude longitude rest p0.seq
        (haversine_m latitude longitude p0.latitude p0.longitude) with h | h
    · refine ⟨p0, List.mem_cons_self p0 rest, ?_⟩
      rw [snapToRoute, snapToRouteAux_cons_none, h]
    · rcases h with ⟨q, hq, hrun⟩
      refine ⟨q, List.mem_cons_of_mem p0 hq, ?_⟩
      rw [snapToRoute, snapToRouteAux_cons_none, hrun]

/-- C5: a marker created by `add_route_marker` stores as `snapped_seq` the
snapper's result and as `snapped_distance_m` the cumulative distance along
the route of the route point carrying that `seq` (stated over a route with
the dense 0-based `seq` invariant an import produces). -/
theorem C5_marker_distance (title : String) (poi_type_id : ℕ)
    (latitude longitude : ℝ) (description : String)
    (route_points : List RoutePoint) (m : RouteMarker)
    (hdense : ∀ (i : ℕ) (h : i < route_points.length),
      (route_points.get ⟨i, h⟩).seq = i)
    (hrun : addRouteMarker title poi_type_id latitude longitude description
      route_points = .ok m) :
    m.snapped_seq = (snapToRoute latitude longitude route_points).1 ∧
      ∃ h : m.snapped_seq < route_points.length,
        (route_points.get ⟨m.snapped_seq, h⟩).seq = m.snapped_seq ∧
        m.snapped_distance_m =
          (route_points.get ⟨m.snapped_seq, h⟩).cumulative_distance_m := by
  cases hempty : route_points.isEmpty with
  | true =>
    simp only [addRouteMarker, hempty, if_true] at hrun
    simp at hrun
  | false =>
    have hne : route_points ≠ [] := by
      intro hnil
      subst hnil
      simp at hempty
    simp only [addRouteMarker, hempty, Bool.false_eq_true, if_false] at hrun
    have hm := Except.ok.inj hrun
    obtain ⟨p, hpmem, hps⟩ := snapToRoute_fst_mem latitude longitude route_points hne
    obtain ⟨i, hi⟩ := List.get_of_mem hpmem
    have hpseq : p.seq = i.1 := by
      rw [← hi]
      exact hdense i.1 i.2
    have hlt : (snapToRoute latitude longitude route_points).1 <
        route_points.length := by
      rw [hps, hpseq]
      exact i.2
    have hseqm : m.snapped_seq = (snapToRoute latitude longitude route_points).1 :=
      (congrArg RouteMarker.snapped_seq hm).symm
    refine ⟨hseqm, ?_⟩
    rw [hseqm]
    refine ⟨hlt, hdense _ hlt, ?_⟩
    have hdist : m.snapped_distance_m =
        (route_points.getD (snapToRoute latitude longitude route_points).1
          default).cumulative_distance_m :=
      (congrArg RouteMarker.snapped_distance_m hm).symm
    rw [hdist, List.getD_eq_get route_points default hlt]

/-- Witness for C5 on a concrete one-point route. -/
theorem C5_marker_distance_witness :
    (⟨"Hut", none, 1, 0, 0, 0, 42⟩ : RouteMarker).snapped_seq =
      (snapToRoute 0 0 [⟨0, 5, 6, none, 42⟩]).1 ∧
      ∃ h : (⟨"Hut", none, 1, 0, 0, 0, 42⟩ : RouteMarker).snapped_seq <
          ([⟨0, 5, 6, none, 42⟩] : List RoutePoint).length,
        (([⟨0, 5, 6, none, 42⟩] : List RoutePoint).get
            ⟨(⟨"Hut", none, 1, 0, 0, 0, 42⟩ : RouteMarker).snapped_seq, h⟩).seq =
          (⟨"Hut", none, 1, 0, 0, 0, 42⟩ : RouteMarker).snapped_seq ∧
        (⟨"Hut", none, 1, 0, 0, 0, 42⟩ : RouteMarker).snapped_distance_m =
          (([⟨0, 5, 6, none, 42⟩] : List RoutePoint).get
            ⟨(⟨"Hut", none, 1, 0, 0, 0, 42⟩ : RouteMarker).snapped_seq,
              h⟩).cumulative_distance_m :=
  C5_marker_distance "Hut" 1 0 0 "" [⟨0, 5, 6, none, 42⟩]
    ⟨"Hut", none, 1, 0, 0, 0, 42⟩
    (by
      intro i h
      have h0 : i = 0 := by
        simp only [List.length_cons, List.length_nil] at h
        omega
      subst h0
      rfl)
    rfl

/-! ## Itinerary generation (claims C3, C6, C10) -/

theorem gen_clear_ignores_existing (route_points : List RoutePoint)
    (markers : List RouteMarker) (existing existing2 : List Item) :
    generateItinerary route_points markers existing true =
      generateItinerary route_points markers existing2 true := by
  unfold generateItinerary
  split_ifs with h1 h2 h3
  · rfl
  · rfl
  · rfl
  · exact absurd rfl h3

/-- A concrete two-point route: cumulative distances 0 and 5 meters. -/
def exP0 : RoutePoint := ⟨0, 0, 0, none, 0⟩

/-- Second concrete route point. -/
def exP1 : RoutePoint := ⟨1, 0, 1, none, 5⟩

/-- A concrete marker snapped onto `seq = 0` (the Start anchor). -/
def exMarker : RouteMarker := ⟨"Hut", none, 1, 0, 0, 0, 0⟩

/-- A hand-created (non-generated) item sitting on the target day. -/
def exManual : Item :=
  ⟨"Lunch", none, "poi", none, none, none, none, none, none, none, none, none,
    none, none, 0⟩

/-- The single travel entry generated for the route `[exP0, exP1]` with the
marker `exMarker`: the Start→marker pair is degenerate and is skipped, so
only the marker→Finish travel entry is emitted and no stop entry at all. -/
noncomputable def exTravel : Item :=
  { title := "Hut -> Finish"
    description := some "Generated from GPX route"
    item_type := "transport"
    start_time := none
    duration_minutes := none
    transport_type := some "walk"
    distance_km := some (max 0 ((5 : ℝ) - 0) / 1000)
    uphill_m := some 0
    downhill_m := some 0
    poi_type_id := none
    latitude := none
    longitude := none
    route_start_seq := some 0
    route_end_seq := some 1
    sort_order := 0 }

theorem gen_example :
    generateItinerary [exP0, exP1] [exMarker] [] true = .ok [exTravel] := by
  norm_num [generateItinerary, sortMarkers, sortedAnchors, buildAnchors,
    emitPairs, calcElevation, calcElevationAux, pairContribution,
    exP0, exP1, exMarker, exTravel, List.insertionSort, List.orderedInsert,
    maxSortOrder]
  decide

/-- C3: with `clearExisting`, generation ignores the pre-existing entries of
the day, so running it a second time over the first run's output yields the
identical entry list (same count, same fields, same order). -/
theorem C3_generation_idempotent (route_points : List RoutePoint)
    (markers : List RouteMarker) (existing L : List Item)
    (h : generateItinerary route_points markers existing true = .ok L) :
    generateItinerary route_points markers L true = .ok L :=
  (gen_clear_ignores_existing route_points markers L existing).trans h

/-- Witness for C3 on the concrete route/marker example. -/
theorem C3_generation_idempotent_witness :
    generateItinerary [exP0, exP1] [exMarker] [] true = .ok [exTravel] ∧
      generateItinerary [exP0, exP1] [exMarker] [exTravel] true = .ok [exTravel] :=
  ⟨gen_example, C3_generation_idempotent [exP0, exP1] [exMarker] [] [exTravel]
    gen_example⟩

/-- C6 fails as stated: with `clearExisting`, generation deletes *every*
entry of the target day, not only previously generated ones. The
hand-created item `exManual` (a plain POI entry, not of generated shape) is
on the day before generation and gone afterwards. -/
theorem C6_counterexample :
    generateItinerary [exP0, exP1] [exMarker] [exManual] true = .ok [exTravel] ∧
      exManual ∉ [exTravel] := by
  constructor
  · exact (gen_clear_ignores_existing [exP0, exP1] [exMarker] [exManual] []).trans
      gen_example
  · intro hmem
    have heq := List.mem_singleton.mp hmem
    have ht := congrArg Item.title heq
    rw [show exManual.title = "Lunch" from rfl] at ht
    have ht2 : exTravel.title = "Hut -> Finish" := rfl
    rw [ht2] at ht
    exact absurd ht (by decide)

/-- C6 (amended): with `clearExisting`, generation deletes *all* entries of
the target day (the outcome is independent of what previously existed) and
starts the `order` counter at 0; without it, the new entries are appended
and the counter starts at `1 + max(existing order)`, or 0 when the day has
no entries. -/
theorem C6_clear_and_order_counter (route_points : List RoutePoint)
    (markers : List RouteMarker) (existing : List Item)
    (h2 : 2 ≤ route_points.length) (hm : markers ≠ []) :
    generateItinerary route_points markers existing true =
      .ok (emitPairs route_points (sortedAnchors route_points markers) 0) ∧
      generateItinerary route_points markers existing false =
        .ok (existing ++ emitPairs route_points
          (sortedAnchors route_points markers)
          ((maxSortOrder existing).elim 0 (· + 1))) ∧
      (∀ existing2, generateItinerary route_points markers existing true =
        generateItinerary route_points markers existing2 true) := by
  have hlen : ¬route_points.length < 2 := by omega
  have hne : ¬markers.isEmpty = true := by
    cases markers with
    | nil => exact absurd rfl hm
    | cons m rest => simp
  refine ⟨?_, ?_, fun existing2 =>
    gen_clear_ignores_existing route_points markers existing existing2⟩
  · unfold generateItinerary
    rw [if_neg hlen, if_neg hne]
    rfl
  · unfold generateItinerary
    rw [if_neg hlen, if_neg hne]
    rfl

/-- Witness for C6 (amended) at the concrete example. -/
theorem C6_clear_and_order_counter_witness :
    generateItinerary [exP0, exP1] [exMarker] [exManual] true =
      .ok (emitPairs [exP0, exP1] (sortedAnchors [exP0, exP1] [exMarker]) 0) ∧
      generateItinerary [exP0, exP1] [exMarker] [exManual] false =
        .ok ([exManual] ++ emitPairs [exP0, exP1]
          (sortedAnchors [exP0, exP1] [exMarker])
          ((maxSortOrder [exManual]).elim 0 (· + 1))) ∧
      (∀ existing2, generateItinerary [exP0, exP1] [exMarker] [exManual] true =
        generateItinerary [exP0, exP1] [exMarker] existing2 true) :=
  C6_clear_and_order_counter [exP0, exP1] [exMarker] [exManual]
    (by simp) (by simp)

/-- C10: a degenerate adjacent anchor pair (`B.seq <= A.seq`) is dropped
entirely — no travel entry and also no stop entry for `B`, marker anchor or
not; consequently the marker `exMarker`, snapped to `seq = 0` where the
Start anchor sits, produces no stop entry at all, and the generated set has
strictly fewer stop entries than there are markers. -/
theorem C10_degenerate_pair_no_stop :
    (∀ (route_points : List RoutePoint) (a b : Anchor) (rest : List Anchor)
        (sort_order : ℤ), b.seq ≤ a.seq →
      emitPairs route_points (a :: b :: rest) sort_order =
        emitPairs route_points (b :: rest) sort_order) ∧
      generateItinerary [exP0, exP1] [exMarker] [] true = .ok [exTravel] ∧
      ([exTravel].countP fun i => i.item_type == "poi") = 0 ∧
      0 < ([exMarker] : List RouteMarker).length := by
  refine ⟨?_, gen_example, ?_, by simp⟩
  · intro route_points a b rest sort_order hba
    rw [emitPairs, if_pos hba]
  · have ht : exTravel.item_type = "transport" := rfl
    simp [List.countP, List.countP.go, ht]

/-- Witness for C10 at a concrete degenerate anchor pair. -/
theorem C10_degenerate_pair_no_stop_witness :
    emitPairs [exP0] [⟨"Start", 0, 0, none⟩, ⟨"Hut", 0, 0, some exMarker⟩] 3 =
      emitPairs [exP0] [⟨"Hut", 0, 0, some exMarker⟩] 3 :=
  C10_degenerate_pair_no_stop.1 [exP0] ⟨"Start", 0, 0, none⟩
    ⟨"Hut", 0, 0, some exMarker⟩ [] 3 (by decide)

/-! ## Track Ingestor (claim C7) -/

/-- What `_parse_gpx_points` extracts from a single element: `none` for
non-track-point elements and for track points missing `lat` or `lon`. -/
def extractPoint (parseFloat : String → Option ℝ) (e : GpxElem) : Option RawPoint :=
  if pyEndsWith e.tag "trkpt" then
    match e.lat, e.lon with
    | some la, some lo =>
      some ⟨la, lo,
        match e.children.find? (fun c => pyEndsWith c.1 "ele" && c.2 != "") with
        | some c => parseFloat c.2
        | none => none⟩
    | _, _ => none
  else none

theorem importRouteGpx_malformed (parseFloat : String → Option ℝ) :
    importRouteGpx parseFloat .malformed = .error .malformedInput := rfl

theorem importRouteGpx_wellFormed (parseFloat : String → Option ℝ)
    (elems : List GpxElem) :
    importRouteGpx parseFloat (.wellFormed elems) =
      if (parseGpxPoints parseFloat elems).length < 2 then
        .error .insufficientData
      else .ok (buildRoutePoints (parseGpxPoints parseFloat elems)) := rfl

theorem parseGpxPoints_eq_filterMap (parseFloat : String → Option ℝ)
    (elems : List GpxElem) :
    parseGpxPoints parseFloat elems = elems.filterMap (extractPoint parseFloat) := by
  induction elems with
  | nil => rfl
  | cons e rest ih =>
    by_cases htag : pyEndsWith e.tag "trkpt"
    · rcases hlat : e.lat with _ | la <;> rcases hlon : e.lon with _ | lo <;>
        simp [parseGpxPoints, extractPoint, htag, hlat, hlon, ih,
          List.filterMap_cons]
    · simp [parseGpxPoints, extractPoint, htag, ih, List.filterMap_cons]

/-- C7: over the abstract parse outcome of the uploaded document, the
route import fails with `MalformedInput` exactly on a non-well-formed document and
with `InsufficientData` exactly when a well-formed document yields fewer than
two extracted points; a track-point element missing `lat` or `lon` is
skipped (removing it changes nothing); and a track point whose elevation
text fails to parse is still extracted, with an absent elevation, rather
than raising an error. -/
theorem C7_track_ingestor (parseFloat : String → Option ℝ) :
    (∀ doc, importRouteGpx parseFloat doc = .error .malformedInput ↔
      doc = .malformed) ∧
      (∀ doc, importRouteGpx parseFloat doc = .error .insufficientData ↔
        ∃ elems, doc = .wellFormed elems ∧
          (parseGpxPoints parseFloat elems).length < 2) ∧
      (∀ (xs : List GpxElem) (e : GpxElem) (ys : List GpxElem),
        e.lat = none ∨ e.lon = none →
        parseGpxPoints parseFloat (xs ++ e :: ys) =
          parseGpxPoints parseFloat (xs ++ ys)) ∧
      (∀ (e : GpxElem) (rest : List GpxElem) (la lo : ℝ) (c : String × String),
        pyEndsWith e.tag "trkpt" = true → e.lat = some la → e.lon = some lo →
        e.children.find? (fun c2 => pyEndsWith c2.1 "ele" && c2.2 != "") = some c →
        parseFloat c.2 = none →
        parseGpxPoints parseFloat (e :: rest) =
          ⟨la, lo, none⟩ :: parseGpxPoints parseFloat rest) := by
  refine ⟨?_, ?_, ?_, ?_⟩
  · intro doc
    cases doc with
    | malformed => simp [importRouteGpx_malformed]
    | wellFormed elems =>
      rw [importRouteGpx_wellFormed]
      constructor
      · intro h
        by_cases hlt : (parseGpxPoints parseFloat elems).length < 2
        · rw [if_pos hlt] at h
          exact ImportError.noConfusion (Except.error.inj h)
        · rw [if_neg hlt] at h
          exact Except.noConfusion h
      · intro h
        exact GpxDoc.noConfusion h
  · intro doc
    cases doc with
    | malformed =>
      rw [importRouteGpx_malformed]
      constructor
      · intro h
        exact ImportError.noConfusion (Except.error.inj h)
      · rintro ⟨elems2, heq, _⟩
        exact GpxDoc.noConfusion heq
    | wellFormed elems =>
      rw [importRouteGpx_wellFormed]
      constructor
      · intro h
        by_cases hlt : (parseGpxPoints parseFloat elems).length < 2
        · exact ⟨elems, rfl, hlt⟩
        · rw [if_neg hlt] at h
          exact Except.noConfusion h
      · rintro ⟨elems2, heq, hlt⟩
        obtain rfl : elems2 = elems := (GpxDoc.wellFormed.inj heq).symm
        rw [if_pos hlt]
  · intro xs e ys hmiss
    have hnone : extractPoint parseFloat e = none := by
      unfold extractPoint
      rcases hmiss with h | h <;>
        rcases hlat : e.lat with _ | la <;> rcases hlon : e.lon with _ | lo <;>
        simp_all
    rw [parseGpxPoints_eq_filterMap, parseGpxPoints_eq_filterMap,
      List.filterMap_append, List.filterMap_append, List.filterMap_cons, hnone]
  · intro e rest la lo c htag hlat hlon hfind hpf
    rw [parseGpxPoints_eq_filterMap, parseGpxPoints_eq_filterMap,
      List.filterMap_cons]
    have hext : extractPoint parseFloat e = some ⟨la, lo, none⟩ := by
      unfold extractPoint
      rw [if_pos htag, hlat, hlon, hfind]
      show some (⟨la, lo, parseFloat c.2⟩ : RawPoint) = some ⟨la, lo, none⟩
      rw [hpf]
    rw [hext]

/-- Witness for C7 at concrete documents and elements. -/
theorem C7_track_ingestor_witness :
    (importRouteGpx (fun _ => none) .malformed = .error .malformedInput ↔
      (.malformed : GpxDoc) = .malformed) ∧
      parseGpxPoints (fun _ => none)
        ([] ++ (⟨"trkpt", none, none, []⟩ : GpxElem) :: []) =
        parseGpxPoints (fun _ => none) ([] ++ []) ∧
      parseGpxPoints (fun _ => none)
        ((⟨"trkpt", some 1, some 2, [("ele", "x")]⟩ : GpxElem) :: []) =
        ⟨1, 2, none⟩ :: parseGpxPoints (fun _ => none) [] :=
  ⟨(C7_track_ingestor (fun _ => none)).1 .malformed,
    (C7_track_ingestor (fun _ => none)).2.2.1 [] ⟨"trkpt", none, none, []⟩ []
      (Or.inl rfl),
    (C7_track_ingestor (fun _ => none)).2.2.2 ⟨"trkpt", some 1, some 2, [("ele", "x")]⟩
      [] 1 2 ("ele", "x") (by decide) rfl rfl (by decide) rfl⟩

end HikeBrowser
